import Mathlib

/-!
Verification of the superset-portable seeding scripts.

The Python sources (`setup/create_rzd_dashboard.py`, `setup/generate_demo_data.py`,
`build_release.py`) are shallowly embedded below.  Python strings become `String`,
lists become `List`, SQLite tables become lists of row structures, and the
fallible parsers `int(...)` / `float(...)` are abstracted as parameters
`pyInt pyFloat : String → Bool` (success predicates) since only the
success/failure of a parse is observed by the embedded code.
-/

/- ──────────────────────────  String utilities  ────────────────────────── -/

/-- Character-list version of "pattern is an initial segment of the string". -/
def leadMatch : List Char → List Char → Bool
  | [], _ => true
  | _ :: _, [] => false
  | a :: as, b :: bs => a == b && leadMatch as bs

/-- Character-list version of Python's substring test `pat in s`. -/
def occursIn (pat : List Char) : List Char → Bool
  | [] => leadMatch pat []
  | c :: cs => leadMatch pat (c :: cs) || occursIn pat cs

/-- Substring test on strings, mirroring Python's `pat in s`. -/
def substrOf (pat s : String) : Bool := occursIn pat.data s.data

/-- ASCII-only lower-casing of one character, as SQLite's `LIKE` folds case. -/
def lowerAscii (c : Char) : Char :=
  if 'A' ≤ c ∧ c ≤ 'Z' then Char.ofNat (c.toNat + 32) else c

/-- SQLite `LIKE '%pat%'` where `pat` contains no wildcard: case-insensitive
(ASCII only) substring test. -/
def likeSub (pat s : String) : Bool :=
  occursIn (pat.data.map lowerAscii) (s.data.map lowerAscii)

/-- SQLite `LIKE 'rzd_%'`: the string starts (ASCII-case-insensitively) with
`rzd` followed by at least one further character (`_` matches any single
character). -/
def likeRzdPre (s : String) : Bool :=
  leadMatch ("rzd".data) (s.data.map lowerAscii) && decide (4 ≤ s.data.length)

/- ─────────────────  create_rzd_dashboard.py : type inference  ───────────────── -/

/-- First loop of `guess_sqlite_type`: returns `true` when some non-empty value
parses as neither an int nor a float (the Python loop `return "TEXT"`). -/
def guessLoopText (pyInt pyFloat : String → Bool) : List String → Bool
  | [] => false
  | v :: rest =>
    if v = "" then guessLoopText pyInt pyFloat rest
    else if pyInt v then guessLoopText pyInt pyFloat rest
    else if pyFloat v then guessLoopText pyInt pyFloat rest
    else true

/-- Second loop of `guess_sqlite_type`: returns `true` when some non-empty value
fails to parse as an int (the Python loop `return "REAL"`). -/
def guessLoopReal (pyInt : String → Bool) : List String → Bool
  | [] => false
  | v :: rest =>
    if v = "" then guessLoopReal pyInt rest
    else if pyInt v then guessLoopReal pyInt rest
    else true

/-- Embedding of `guess_sqlite_type(values)` from `create_rzd_dashboard.py`. -/
def guess_sqlite_type (pyInt pyFloat : String → Bool) (values : List String) : String :=
  if guessLoopText pyInt pyFloat values then "TEXT"
  else if guessLoopReal pyInt values then "REAL"
  else "INTEGER"

/- ─────────────  create_rzd_dashboard.py : schema inference (first 50 rows)  ───────────── -/

/-- The list comprehension `[r[i] for r in rows[:50] if i < len(r)]`. -/
def colValues (rows : List (List String)) (i : Nat) : List String :=
  (rows.take 50).filterMap (fun r => r[i]?)

/-- Embedding of `infer_schema(headers, rows)` from `create_rzd_dashboard.py`. -/
def infer_schema (pyInt pyFloat : String → Bool) (headers : List String)
    (rows : List (List String)) : List (String × String) :=
  headers.enum.map (fun p => (p.2, guess_sqlite_type pyInt pyFloat (colValues rows p.1)))

/-- SQLite cell values as produced by the row-conversion loop of
`create_examples_db`. -/
inductive SqlVal where
  | null : SqlVal
  | intV : Int → SqlVal
  | realV : Rat → SqlVal
  | strV : String → SqlVal
deriving DecidableEq, Repr

/-- Embedding of the per-cell conversion in `create_examples_db`: `None` and the
empty string become NULL, an `INTEGER`/`REAL` column tries the corresponding
parse and on failure stores the raw string unconverted. -/
def convertVal (pyIntP : String → Option Int) (pyFloatP : String → Option Rat)
    (typ : String) (val : Option String) : SqlVal :=
  match val with
  | none => .null
  | some v =>
    if v = "" then .null
    else if typ = "INTEGER" then
      match pyIntP v with
      | some n => .intV n
      | none => .strV v
    else if typ = "REAL" then
      match pyFloatP v with
      | some q => .realV q
      | none => .strV v
    else .strV v

/- ─────────────────────  build_release.py : archive exclusion  ───────────────────── -/

/-- The `EXCLUDE_PATTERNS` constant of `build_release.py`. -/
def EXCLUDE_PATTERNS : List String :=
  [ "__pycache__",
    ".pyc",
    ".pyo",
    "*.egg-info",
    ".git",
    ".DS_Store",
    "Thumbs.db",
    "superset_home/uploads",
    "superset_home/__pycache__",
    "python/Scripts",
    "python/Lib/test",
    "python/Lib/unittest",
    "python/Lib/site-packages/pip",
    "python/Lib/site-packages/setuptools",
    "python/share",
    "python/doc",
    "python/tcl",
    "python/tools",
    "*.pdb",
    "*.dist-info" ]

/-- Loop body of `should_exclude`: first pattern that occurs as a substring wins. -/
def shouldExcludeGo (p : String) : List String → Bool
  | [] => false
  | pat :: rest => if substrOf pat p then true else shouldExcludeGo p rest

/-- Embedding of `should_exclude(rel_path_str)` from `build_release.py`. -/
def should_exclude (p : String) : Bool := shouldExcludeGo p EXCLUDE_PATTERNS

/- ─────────────  create_rzd_dashboard.py : fix_examples_db_connection  ───────────── -/

/-- A row of the `dbs` metadata table (the fields the script reads or writes). -/
structure DbRow where
  id : Nat
  database_name : String
  sqlalchemy_uri : String
  uuidHex : String
  expose_in_sqllab : Bool
  allow_dml : Bool
  allow_file_upload : Bool
  changed_on : String
deriving DecidableEq, Repr

/-- Python's `str(EXAMPLES_DB).replace("\\", "/")` prefixed by the scheme. -/
def portableUri (examplesPath : String) : String :=
  "sqlite:///" ++ String.mk (examplesPath.data.map (fun c => if c = '\\' then '/' else c))

/-- SQLite's `lastrowid` for an insert: one more than the largest existing rowid. -/
def nextId (ids : List Nat) : Nat := ids.foldr max 0 + 1

/-- The `UPDATE dbs SET ... WHERE id = ?` statement applied to one row. -/
def updateExamplesRow (uri uuidHex now : String) (r : DbRow) : DbRow :=
  { r with sqlalchemy_uri := uri, uuidHex := uuidHex, allow_file_upload := true,
           expose_in_sqllab := true, allow_dml := true, changed_on := now }

/-- Embedding of `fix_examples_db_connection(cur)`: find the first `dbs` row
named `examples`; update it in place when found, insert a fresh row otherwise;
return the row's id. -/
def fix_examples_db_connection (examplesPath uuidHex now : String)
    (dbs : List DbRow) : List DbRow × Nat :=
  let uri := portableUri examplesPath
  match dbs.find? (fun r => r.database_name == "examples") with
  | some r =>
      (dbs.map (fun x => if x.id = r.id then updateExamplesRow uri uuidHex now x else x), r.id)
  | none =>
      let newRow : DbRow :=
        { id := nextId (dbs.map (·.id)), database_name := "examples",
          sqlalchemy_uri := uri, uuidHex := uuidHex, expose_in_sqllab := true,
          allow_dml := true, allow_file_upload := true, changed_on := now }
      (dbs ++ [newRow], newRow.id)

/- ─────────────  generate_demo_data.py : nearest-neighbor routes  ───────────── -/

/-- A station record as produced by `generate_stations` (the fields read by
`generate_routes`).  Coordinates are rationals; the floating-point haversine
`calculate_distance` is abstracted as a parameter `d` on coordinates. -/
structure Station where
  id : Nat
  name : String
  latitude : Rat
  longitude : Rat
deriving DecidableEq, Repr

/-- The filter `[s for s in stations if "Главный" in s["name"]]`. -/
def mainStations (stations : List Station) : List Station :=
  stations.filter (fun s => occursIn "Главный".data s.name.data)

/-- The distance list built for one origin: every other main station paired
with its distance (`if origin["id"] == dest["id"]: continue`). -/
def stationDistances (d : Rat → Rat → Rat → Rat → Rat) (ms : List Station)
    (origin : Station) : List (Station × Rat) :=
  (ms.filter (fun s => ! (s.id == origin.id))).map
    (fun s => (s, d origin.latitude origin.longitude s.latitude s.longitude))

/-- Stable insertion of one element into a distance-sorted list: the new
element goes after every element whose key is `≤` its key, matching the tie
order of Python's stable `sort(key=lambda x: x[1])`. -/
def insSorted (x : Station × Rat) : List (Station × Rat) → List (Station × Rat)
  | [] => [x]
  | y :: l => if y.2 ≤ x.2 then y :: insSorted x l else x :: y :: l

/-- Stable sort by distance (`distances.sort(key=lambda x: x[1])`). -/
def sortByDist (l : List (Station × Rat)) : List (Station × Rat) :=
  l.foldl (fun acc x => insSorted x acc) []

/-- `nearest = distances[:4]` after the sort. -/
def nearestFour (d : Rat → Rat → Rat → Rat → Rat) (ms : List Station)
    (origin : Station) : List (Station × Rat) :=
  (sortByDist (stationDistances d ms origin)).take 4

/-- Embedding of `generate_routes(stations)`, keeping each route as its
(origin, destination) station pair: for every main station, every one of its
four nearest other main stations with a larger id yields one route. -/
def routesOf (d : Rat → Rat → Rat → Rat → Rat) (stations : List Station) :
    List (Station × Station) :=
  (mainStations stations).flatMap (fun origin =>
    (nearestFour d (mainStations stations) origin).filterMap
      (fun p => if origin.id < p.1.id then some (origin, p.1) else none))

/- ─────────────  create_rzd_dashboard.py : metadata-store model  ───────────── -/

/-- A row of the `tables` metadata table. -/
structure TableRow where
  id : Nat
  table_name : String
  database_id : Nat
  description : String
  main_dttm_col : Option String
deriving DecidableEq, Repr

/-- A row of the `table_columns` metadata table. -/
structure ColumnRow where
  table_id : Nat
  column_name : String
  typ : String
  is_dttm : Bool
  groupby : Bool
  filterable : Bool
deriving DecidableEq, Repr

/-- A row of the `slices` (charts) metadata table. -/
structure SliceRow where
  id : Nat
  slice_name : String
  viz_type : String
  datasource_id : Nat
  datasource_name : String
deriving DecidableEq, Repr

/-- Per-node `meta` object of the dashboard layout tree. -/
structure NodeMeta where
  chartId : Option Nat
  width : Option Nat
  height : Option Nat
  sliceName : Option String
  uuidStr : Option String
  text : Option String
  background : Option String
deriving DecidableEq, Repr

/-- One node of the dashboard `position_json` layout tree. -/
structure LayoutNode where
  idStr : String
  typ : String
  children : List String
  parents : List String
  meta : Option NodeMeta
deriving DecidableEq, Repr

/-- A row of the `dashboards` metadata table; `position` is the decoded
`position_json` node map (the `DASHBOARD_VERSION_KEY` marker entry is elided). -/
structure DashRow where
  id : Nat
  dashboard_title : String
  slug : String
  position : List (String × LayoutNode)
deriving DecidableEq, Repr

/-- The superset.db metadata state: the tables touched by the script. -/
structure MetaState where
  dbs : List DbRow
  tables : List TableRow
  table_columns : List ColumnRow
  slices : List SliceRow
  dashboards : List DashRow
  dashboard_slices : List (Nat × Nat)
deriving DecidableEq, Repr

/-- One dataset description from the `DATASETS` constant. -/
structure DatasetDef where
  key : String
  table_name : String
  description : String
  csv : String
  main_dttm_col : Option String
deriving DecidableEq, Repr

/-- The `DATASETS` constant of `create_rzd_dashboard.py`. -/
def DATASETS : List DatasetDef :=
  [ ⟨"ds_stations", "rzd_stations", "Станции РЖД — 50 крупнейших станций России",
      "rzd_stations.csv", none⟩,
    ⟨"ds_monthly", "rzd_monthly_stats", "Месячная статистика перевозок РЖД за 2024-2025",
      "rzd_monthly_stats.csv", none⟩,
    ⟨"ds_cargo", "rzd_cargo_types", "Типы грузов и объёмы перевозок",
      "rzd_cargo_types.csv", none⟩,
    ⟨"ds_daily", "rzd_daily_operations", "Ежедневные операции по регионам и типам маршрутов",
      "rzd_daily_operations.csv", some "date"⟩,
    ⟨"ds_incidents", "rzd_incidents", "Инциденты на железной дороге за 2024 год",
      "rzd_incidents.csv", some "date"⟩,
    ⟨"ds_kpi", "rzd_kpi_metrics", "Ключевые показатели эффективности (KPI) по кварталам",
      "rzd_kpi_metrics.csv", none⟩ ]

/-- One column description as built inside `get_columns_from_csv`. -/
structure ColMeta where
  column_name : String
  typ : String
  is_dttm : Bool
  groupby : Bool
  filterable : Bool
deriving DecidableEq, Repr

/-- The per-column flag computation of `get_columns_from_csv`: default STRING,
INTEGER/FLOAT from the inferred SQLite type, `groupby` cleared for REAL, and a
column named `date` marked temporal with its type forced back to STRING. -/
def colMetaOf (col_name col_type : String) : ColMeta :=
  let st1 := if col_type = "INTEGER" then "INTEGER"
    else if col_type = "REAL" then "FLOAT" else "STRING"
  let gb := if col_type = "INTEGER" then true
    else if col_type = "REAL" then false else true
  { column_name := col_name,
    typ := if col_name = "date" then "STRING" else st1,
    is_dttm := col_name = "date",
    groupby := gb,
    filterable := true }

/-- Embedding of `get_columns_from_csv` over the (headers, rows) content of the
named CSV (`if not headers: return []`). -/
def get_columns_from_csv (pyInt pyFloat : String → Bool) (headers : List String)
    (rows : List (List String)) : List ColMeta :=
  if headers = [] then []
  else (infer_schema pyInt pyFloat headers rows).map (fun p => colMetaOf p.1 p.2)

/-- SQLite `LIKE` patterns of `clean_old_rzd_data`'s chart-name sweep,
applied to a slice's name and datasource name. -/
def namePatternHit (slice_name datasource_name : String) : Bool :=
  likeSub "РЖД" slice_name || likeSub "RZD" slice_name ||
  likeSub "Пассажир" slice_name || likeSub "грузов" slice_name ||
  likeSub "Станци" slice_name || likeSub "Инцидент" slice_name ||
  likeSub "KPI" slice_name || likeSub "Выручка" slice_name ||
  likeRzdPre datasource_name

/-- The name-or-datasource match used twice inside `clean_old_rzd_data`. -/
def sliceNameMatches (s : SliceRow) : Bool :=
  namePatternHit s.slice_name s.datasource_name

/-- The ids collected by step 1 of `clean_old_rzd_data`: datasets whose name is
`LIKE 'rzd_%'`. -/
def rzdTableIdsOf (st : MetaState) : List Nat :=
  (st.tables.filter (fun t => likeRzdPre t.table_name)).map (·.id)

/-- The ids collected by step 2 of `clean_old_rzd_data`: charts bound to an rzd
dataset, plus charts matched by name pattern or datasource name. -/
def rzdSliceIdsOf (st : MetaState) : List Nat :=
  (st.slices.filter (fun s => (rzdTableIdsOf st).contains s.datasource_id)).map (·.id)
    ++ (st.slices.filter sliceNameMatches).map (·.id)

/-- The ids of dashboards with slug `rzd_analytics`. -/
def rzdDashIdsOf (st : MetaState) : List Nat :=
  (st.dashboards.filter (fun dsh => dsh.slug == "rzd_analytics")).map (·.id)

/-- Embedding of `clean_old_rzd_data(cur)`, continued: delete the dashboard
links, the charts, the columns, the datasets, the dashboard, and orphaned
columns, in the statement order of the source. -/
def clean_old_rzd_data (st : MetaState) : MetaState :=
  let rzdTableIds := rzdTableIdsOf st
  let rzdSliceIds := rzdSliceIdsOf st
  let rzdDashIds := rzdDashIdsOf st
  let ds1 := st.dashboard_slices.filter (fun p => ! rzdDashIds.contains p.1)
  let ds2 := ds1.filter (fun p => ! rzdSliceIds.contains p.2)
  let slices1 := st.slices.filter (fun s => ! rzdSliceIds.contains s.id)
  let slices2 := slices1.filter (fun s => ! sliceNameMatches s)
  let cols1 := st.table_columns.filter (fun c => ! rzdTableIds.contains c.table_id)
  let tables1 := st.tables.filter (fun t => ! likeRzdPre t.table_name)
  let dash1 := st.dashboards.filter (fun dsh => ! (dsh.slug == "rzd_analytics"))
  let cols2 := cols1.filter (fun c => (tables1.map (·.id)).contains c.table_id)
  { st with tables := tables1, table_columns := cols2, slices := slices2,
            dashboards := dash1, dashboard_slices := ds2 }

/-- One iteration of the `register_datasets` loop: insert the tables row, clear
colliding `table_columns` rows for the fresh id, insert one column row per
inferred CSV column, and record the assigned id. -/
def registerOne (pyInt pyFloat : String → Bool)
    (csvData : String → List String × List (List String)) (db_id : Nat)
    (acc : MetaState × List (String × Nat)) (ds : DatasetDef) :
    MetaState × List (String × Nat) :=
  let st := acc.1
  let newId := nextId (st.tables.map (·.id))
  let tRow : TableRow := { id := newId, table_name := ds.table_name,
                           database_id := db_id, description := ds.description,
                           main_dttm_col := ds.main_dttm_col }
  let colsCleared := st.table_columns.filter (fun c => ! (c.table_id == newId))
  let data := csvData ds.csv
  let cols := get_columns_from_csv pyInt pyFloat data.1 data.2
  let colRows := cols.map (fun c =>
    ColumnRow.mk newId c.column_name c.typ c.is_dttm c.groupby c.filterable)
  ({ st with tables := st.tables ++ [tRow], table_columns := colsCleared ++ colRows },
   acc.2 ++ [(ds.key, newId)])

/-- Embedding of `register_datasets(cur, db_id)`. -/
def register_datasets (pyInt pyFloat : String → Bool)
    (csvData : String → List String × List (List String)) (db_id : Nat)
    (st : MetaState) : MetaState × List (String × Nat) :=
  DATASETS.foldl (registerOne pyInt pyFloat csvData db_id) (st, [])

/-- One chart definition from the `charts` list inside `create_charts` (the
fields that become `slices` columns; the `params` blob is not modelled). -/
structure ChartDef where
  key : String
  name : String
  viz_type : String
  dataset_key : String
deriving DecidableEq, Repr

/-- The six chart definitions of `create_charts`, in source order. -/
def CHARTS : List ChartDef :=
  [ ⟨"ch_total_pass", "Пассажиропоток (млн)", "big_number_total", "ds_monthly"⟩,
    ⟨"ch_monthly_bar", "Выручка по месяцам (млрд ₽)", "echarts_timeseries_bar", "ds_monthly"⟩,
    ⟨"ch_cargo_pie", "Распределение грузов", "pie", "ds_cargo"⟩,
    ⟨"ch_stations_tbl", "Крупнейшие станции РЖД", "table", "ds_stations"⟩,
    ⟨"ch_daily_line", "Пассажиры по регионам (тыс.)", "echarts_timeseries_line", "ds_daily"⟩,
    ⟨"ch_incidents_bar", "Инциденты по типам", "echarts_timeseries_bar", "ds_incidents"⟩ ]

/-- The `next(d["table_name"] for d in DATASETS if d["key"] == ds_key)` lookup. -/
def datasetTableName (key : String) : String :=
  match DATASETS.find? (fun d => d.key == key) with
  | some d => d.table_name
  | none => ""

/-- Python dict lookup `assoc[key]` on the id maps threaded between phases. -/
def lookupId (assoc : List (String × Nat)) (key : String) : Nat :=
  match assoc.find? (fun p => p.1 == key) with
  | some p => p.2
  | none => 0

/-- One iteration of the `create_charts` loop. -/
def chartStep (dataset_ids : List (String × Nat))
    (acc : MetaState × List (String × Nat)) (ch : ChartDef) :
    MetaState × List (String × Nat) :=
  let st := acc.1
  let newId := nextId (st.slices.map (·.id))
  let row : SliceRow := { id := newId, slice_name := ch.name, viz_type := ch.viz_type,
                          datasource_id := lookupId dataset_ids ch.dataset_key,
                          datasource_name := datasetTableName ch.dataset_key }
  ({ st with slices := st.slices ++ [row] }, acc.2 ++ [(ch.key, newId)])

/-- Embedding of `create_charts(cur, dataset_ids)`. -/
def create_charts (dataset_ids : List (String × Nat)) (st : MetaState) :
    MetaState × List (String × Nat) :=
  CHARTS.foldl (chartStep dataset_ids) (st, [])

/-- The all-absent node `meta` object. -/
def emptyMeta : NodeMeta := ⟨none, none, none, none, none, none, none⟩

/-- The `meta` object of a CHART layout node. -/
def chartMeta (cid w h : Nat) (sname uuidS : String) : NodeMeta :=
  { emptyMeta with chartId := some cid, width := some w, height := some h,
                   sliceName := some sname, uuidStr := some uuidS }

/-- The `position` dict literal of `create_dashboard`, as a node map keyed by
node id (the `DASHBOARD_VERSION_KEY: v2` marker entry is elided). -/
def positionOf (chTotal chBar chPie chTable chLine chInc : Nat) :
    List (String × LayoutNode) :=
  [ ("ROOT_ID", ⟨"ROOT_ID", "ROOT", ["GRID_ID"], [], none⟩),
    ("GRID_ID", ⟨"GRID_ID", "GRID", ["ROW-1", "ROW-2", "ROW-3"], ["ROOT_ID"], none⟩),
    ("HEADER_ID", ⟨"HEADER_ID", "HEADER", [], [],
      some { emptyMeta with text := some "РЖД Аналитика" }⟩),
    ("ROW-1", ⟨"ROW-1", "ROW", ["CHART-total", "CHART-bar"], [],
      some { emptyMeta with background := some "BACKGROUND_TRANSPARENT" }⟩),
    ("CHART-total", ⟨"CHART-total", "CHART", [], [],
      some (chartMeta chTotal 4 50 "Пассажиропоток (млн)"
        "c2000001-0001-0001-0001-000000000001")⟩),
    ("CHART-bar", ⟨"CHART-bar", "CHART", [], [],
      some (chartMeta chBar 8 50 "Выручка по месяцам (млрд руб)"
        "c2000002-0002-0002-0002-000000000002")⟩),
    ("ROW-2", ⟨"ROW-2", "ROW", ["CHART-pie", "CHART-line"], [],
      some { emptyMeta with background := some "BACKGROUND_TRANSPARENT" }⟩),
    ("CHART-pie", ⟨"CHART-pie", "CHART", [], [],
      some (chartMeta chPie 4 50 "Распределение грузов"
        "c2000003-0003-0003-0003-000000000003")⟩),
    ("CHART-line", ⟨"CHART-line", "CHART", [], [],
      some (chartMeta chLine 8 50 "Пассажиры по регионам (тыс.)"
        "c2000005-0005-0005-0005-000000000005")⟩),
    ("ROW-3", ⟨"ROW-3", "ROW", ["CHART-table", "CHART-inc"], [],
      some { emptyMeta with background := some "BACKGROUND_TRANSPARENT" }⟩),
    ("CHART-table", ⟨"CHART-table", "CHART", [], [],
      some (chartMeta chTable 8 50 "Крупнейшие станции РЖД"
        "c2000004-0004-0004-0004-000000000004")⟩),
    ("CHART-inc", ⟨"CHART-inc", "CHART", [], [],
      some (chartMeta chInc 4 50 "Инциденты по типам"
        "c2000006-0006-0006-0006-000000000006")⟩) ]

/-- Lookup of a layout node by its key in a node map. -/
def nodeLookup (pos : List (String × LayoutNode)) (k : String) : Option LayoutNode :=
  (pos.find? (fun p => p.1 == k)).map (·.2)

/-- Embedding of `create_dashboard(cur, chart_ids)`: insert one dashboards row
with slug `rzd_analytics` and the layout tree built from the six chart ids,
then link every chart to the new dashboard in the `dashboard_slices` table. -/
def create_dashboard (chart_ids : List (String × Nat)) (st : MetaState) :
    MetaState × Nat :=
  let newId := nextId (st.dashboards.map (·.id))
  let dRow : DashRow :=
    { id := newId, dashboard_title := "РЖД Аналитика", slug := "rzd_analytics",
      position := positionOf (lookupId chart_ids "ch_total_pass")
        (lookupId chart_ids "ch_monthly_bar") (lookupId chart_ids "ch_cargo_pie")
        (lookupId chart_ids "ch_stations_tbl") (lookupId chart_ids "ch_daily_line")
        (lookupId chart_ids "ch_incidents_bar") }
  let links := chart_ids.map (fun p => (newId, p.2))
  ({ st with dashboards := st.dashboards ++ [dRow],
             dashboard_slices := st.dashboard_slices ++ links }, newId)

/-- Phases 2-5 of `main()`: cleanup, connection upsert, dataset registration,
chart creation and dashboard creation, threaded over the metadata state. -/
def seedMetadata (pyInt pyFloat : String → Bool)
    (csvData : String → List String × List (List String))
    (path uuidHex now : String) (st : MetaState) : MetaState :=
  let st1 := clean_old_rzd_data st
  let conn := fix_examples_db_connection path uuidHex now st1.dbs
  let st2 := { st1 with dbs := conn.1 }
  let reg := register_datasets pyInt pyFloat csvData conn.2 st2
  let ch := create_charts reg.2 reg.1
  (create_dashboard ch.2 ch.1).1

/- ─────────────────  create_dashboard : layout-tree integrity  ───────────────── -/

/-- Width recorded in a CHART node's meta (0 when absent). -/
def nodeWidth (pos : List (String × LayoutNode)) (k : String) : Nat :=
  match nodeLookup pos k with
  | some n =>
    match n.meta with
    | some m => m.width.getD 0
    | none => 0
  | none => 0

/-- The chart ids of all CHART nodes of a node map, in map order. -/
def nodeChartIds (pos : List (String × LayoutNode)) : List Nat :=
  pos.filterMap (fun q => if q.2.typ = "CHART" then q.2.meta.bind (·.chartId) else none)

/- ─────────────────  main() : transaction atomicity and phase trace  ───────────────── -/

/-- A SQLite connection as `main()` uses it: the durable database contents and
the uncommitted transaction buffer. -/
structure TxConn where
  persisted : MetaState
  buffer : MetaState
deriving DecidableEq, Repr

/-- `sqlite3.connect`: the open transaction initially sees the stored state. -/
def openConn (db : MetaState) : TxConn := ⟨db, db⟩

/-- `conn.commit()`: the buffered writes become durable. -/
def commitTx (c : TxConn) : TxConn := ⟨c.buffer, c.buffer⟩

/-- `conn.rollback()`: the buffered writes are discarded. -/
def rollbackTx (c : TxConn) : TxConn := ⟨c.persisted, c.persisted⟩

/-- The `try/except` block of `main()` over superset.db: run phases 2-5 in one
transaction and commit at the end, or — when an exception interrupts the
phases, leaving an arbitrary partial buffer `pb` — roll back and exit with
status 1.  `failure = none` is the exception-free run; `failure = some pb`
injects a failure at any point, `pb` being whatever the transaction buffer
held when the exception was raised. -/
def mainMetaTx (pyInt pyFloat : String → Bool)
    (csvData : String → List String × List (List String))
    (path uuidHex now : String) (db : MetaState) (failure : Option MetaState) :
    MetaState × Nat :=
  let c := openConn db
  match failure with
  | none =>
      let c2 := { c with buffer := seedMetadata pyInt pyFloat csvData path uuidHex now c.buffer }
      let c3 := commitTx c2
      (c3.persisted, 0)
  | some pb =>
      let c2 := { c with buffer := pb }
      let c3 := rollbackTx c2
      (c3.persisted, 1)

/-- One event of `main()`'s execution order: a phase starts, or a commit is
issued to a database file. -/
inductive SeedEvent where
  | phase : String → SeedEvent
  | commitTo : String → SeedEvent
deriving DecidableEq, Repr

/-- The event order of `main()`: `create_examples_db` commits its own
connection (line 172), then the five metadata phases run inside one
transaction on superset.db whose only commit is issued after
`create_dashboard` returns (line 965). -/
def mainTrace : List SeedEvent :=
  [ SeedEvent.phase "create_examples_db",
    SeedEvent.commitTo "examples.db",
    SeedEvent.phase "clean_old_rzd_data",
    SeedEvent.phase "fix_examples_db_connection",
    SeedEvent.phase "register_datasets",
    SeedEvent.phase "create_charts",
    SeedEvent.phase "create_dashboard",
    SeedEvent.commitTo "superset.db" ]

/- ──────────────────────────────  Theorems  ────────────────────────────── -/

theorem leadMatch_nil_iff (pat : List Char) : leadMatch pat [] = true ↔ pat = [] := by
  cases pat <;> simp [leadMatch]

theorem mem_of_leadMatch {pat s : List Char} (h : leadMatch pat s = true) :
    ∀ c ∈ pat, c ∈ s := by
  induction pat generalizing s with
  | nil => simp
  | cons a as ih =>
    cases s with
    | nil => simp [leadMatch] at h
    | cons b bs =>
      simp only [leadMatch, Bool.and_eq_true, beq_iff_eq] at h
      intro c hc
      rcases List.mem_cons.mp hc with rfl | hc
      · exact h.1 ▸ List.mem_cons_self _ _
      · exact List.mem_cons_of_mem _ (ih h.2 c hc)

theorem mem_of_occursIn {pat s : List Char} (h : occursIn pat s = true) :
    ∀ c ∈ pat, c ∈ s := by
  induction s with
  | nil =>
    simp only [occursIn] at h
    simp [(leadMatch_nil_iff pat).mp h]
  | cons b bs ih =>
    simp only [occursIn, Bool.or_eq_true] at h
    rcases h with h | h
    · exact mem_of_leadMatch h
    · exact fun c hc => List.mem_cons_of_mem _ (ih h c hc)

theorem guessLoopText_iff (pyInt pyFloat : String → Bool) (values : List String) :
    guessLoopText pyInt pyFloat values = true ↔
      ∃ v ∈ values, v ≠ "" ∧ pyInt v = false ∧ pyFloat v = false := by
  induction values with
  | nil => simp [guessLoopText]
  | cons v rest ih =>
    by_cases h0 : v = "" <;> by_cases h1 : pyInt v = true <;>
      by_cases h2 : pyFloat v = true <;>
      simp_all [guessLoopText]

theorem guessLoopReal_iff (pyInt : String → Bool) (values : List String) :
    guessLoopReal pyInt values = true ↔ ∃ v ∈ values, v ≠ "" ∧ pyInt v = false := by
  induction values with
  | nil => simp [guessLoopReal]
  | cons v rest ih =>
    by_cases h0 : v = "" <;> by_cases h1 : pyInt v = true <;>
      simp_all [guessLoopReal]

/-- C3: `guess_sqlite_type` returns `TEXT` exactly when some non-empty value
parses as neither an int nor a float; otherwise `REAL` exactly when some
non-empty value parses as a float but not as an int; otherwise `INTEGER`
(in particular the all-empty and the empty lists give `INTEGER`). -/
theorem guess_sqlite_type_spec (pyInt pyFloat : String → Bool) (values : List String) :
    (guess_sqlite_type pyInt pyFloat values =
      if ∃ v ∈ values, v ≠ "" ∧ pyInt v = false ∧ pyFloat v = false then "TEXT"
      else if ∃ v ∈ values, v ≠ "" ∧ pyFloat v = true ∧ pyInt v = false then "REAL"
      else "INTEGER")
    ∧ ((∀ v ∈ values, v = "") → guess_sqlite_type pyInt pyFloat values = "INTEGER")
    ∧ guess_sqlite_type pyInt pyFloat [] = "INTEGER" := by
  refine ⟨?_, ?_, by simp [guess_sqlite_type, guessLoopText, guessLoopReal]⟩
  · unfold guess_sqlite_type
    by_cases hT : ∃ v ∈ values, v ≠ "" ∧ pyInt v = false ∧ pyFloat v = false
    · rw [if_pos ((guessLoopText_iff pyInt pyFloat values).mpr hT), if_pos hT]
    · have hTf : ¬ guessLoopText pyInt pyFloat values = true :=
        fun hc => hT ((guessLoopText_iff pyInt pyFloat values).mp hc)
      rw [if_neg hTf, if_neg hT]
      by_cases hR : ∃ v ∈ values, v ≠ "" ∧ pyFloat v = true ∧ pyInt v = false
      · obtain ⟨v, hv, h0, _, hI⟩ := hR
        rw [if_pos ((guessLoopReal_iff pyInt values).mpr ⟨v, hv, h0, hI⟩), if_pos]
        exact ⟨v, hv, h0, by assumption, hI⟩
      · have hRf : ¬ guessLoopReal pyInt values = true := by
          intro hc
          obtain ⟨v, hv, h0, hI⟩ := (guessLoopReal_iff pyInt values).mp hc
          by_cases hF : pyFloat v = true
          · exact hR ⟨v, hv, h0, hF, hI⟩
          · exact hT ⟨v, hv, h0, hI, by simpa using hF⟩
        rw [if_neg hRf, if_neg hR]
  · intro hall
    have h1 : ¬ guessLoopText pyInt pyFloat values = true := by
      intro hc
      obtain ⟨v, hv, h0, _⟩ := (guessLoopText_iff pyInt pyFloat values).mp hc
      exact h0 (hall v hv)
    have h2 : ¬ guessLoopReal pyInt values = true := by
      intro hc
      obtain ⟨v, hv, h0, _⟩ := (guessLoopReal_iff pyInt values).mp hc
      exact h0 (hall v hv)
    simp [guess_sqlite_type, h1, h2]

/-- Closed witness: `guess_sqlite_type` with concrete parsers at a concrete list. -/
theorem guess_sqlite_type_spec_witness :
    guess_sqlite_type (fun v => v = "1") (fun v => v = "1" ∨ v = "1.5") ["", "1", "1.5"] =
      "REAL" := by
  have h := (guess_sqlite_type_spec (fun v => decide (v = "1"))
      (fun v => decide (v = "1" ∨ v = "1.5")) ["", "1", "1.5"]).1
  rw [h]
  decide

/-- C10: `infer_schema` only reads the first 50 rows — two row lists agreeing on
their first 50 elements yield identical schemas — and a value that fails the
integer parse in a column typed `INTEGER` is stored unconverted by
`create_examples_db`'s conversion. -/
theorem infer_schema_first50 (pyInt pyFloat : String → Bool)
    (pyIntP : String → Option Int) (pyFloatP : String → Option Rat)
    (headers : List String) (rows₁ rows₂ : List (List String))
    (h : rows₁.take 50 = rows₂.take 50) :
    infer_schema pyInt pyFloat headers rows₁ = infer_schema pyInt pyFloat headers rows₂
    ∧ (∀ v : String, v ≠ "" → pyIntP v = none →
        convertVal pyIntP pyFloatP "INTEGER" (some v) = .strV v) := by
  constructor
  · unfold infer_schema colValues
    rw [h]
  · intro v hv hp
    simp [convertVal, hv, hp]

/-- Closed witness: two concrete 51-row lists that differ only in row 51 get the
same schema, and "abc" is stored raw in an INTEGER column. -/
theorem infer_schema_first50_witness :
    infer_schema (fun _ => true) (fun _ => true) ["a"]
        (List.replicate 50 ["1"] ++ [["1"]]) =
      infer_schema (fun _ => true) (fun _ => true) ["a"]
        (List.replicate 50 ["1"] ++ [["abc"]])
    ∧ convertVal (fun _ => none) (fun _ => none) "INTEGER" (some "abc") = .strV "abc" := by
  have h := infer_schema_first50 (fun _ => true) (fun _ => true)
    (fun _ => none) (fun _ => none) ["a"]
    (List.replicate 50 ["1"] ++ [["1"]]) (List.replicate 50 ["1"] ++ [["abc"]])
    (by decide)
  exact ⟨h.1, h.2 "abc" (by decide) rfl⟩

theorem shouldExcludeGo_eq_any (p : String) (pats : List String) :
    shouldExcludeGo p pats = pats.any (fun pat => substrOf pat p) := by
  induction pats with
  | nil => rfl
  | cons pat rest ih =>
    by_cases h : substrOf pat p = true <;> simp [shouldExcludeGo, h, ih]

/-- C9: `should_exclude` is literal substring matching against
`EXCLUDE_PATTERNS`, and on any path free of the character `*` the three
wildcard-bearing patterns can never match, so e.g. paths ending in
`.egg-info`, `.pdb` or `.dist-info` are not excluded by them. -/
theorem should_exclude_spec (p : String) (h : ('*' : Char) ∉ p.data) :
    (should_exclude p = true ↔ ∃ pat ∈ EXCLUDE_PATTERNS, substrOf pat p = true)
    ∧ substrOf "*.egg-info" p = false
    ∧ substrOf "*.pdb" p = false
    ∧ substrOf "*.dist-info" p = false := by
  have noStar : ∀ pat : String, ('*' : Char) ∈ pat.data → substrOf pat p = false := by
    intro pat hstar
    cases hocc : substrOf pat p
    · rfl
    · exact absurd (mem_of_occursIn hocc '*' hstar) h
  refine ⟨?_, noStar _ (by decide), noStar _ (by decide), noStar _ (by decide)⟩
  rw [should_exclude, shouldExcludeGo_eq_any]
  simp

/-- Closed witness: a concrete `.egg-info` path (star-free) is not excluded even
though the intent of the pattern list is plainly to exclude it. -/
theorem should_exclude_spec_witness :
    ('*' : Char) ∉ ("superset.egg-info/PKG-INFO" : String).data
    ∧ substrOf "*.egg-info" "superset.egg-info/PKG-INFO" = false
    ∧ should_exclude "superset.egg-info/PKG-INFO" = false := by
  refine ⟨by decide, (should_exclude_spec "superset.egg-info/PKG-INFO" (by decide)).2.1, ?_⟩
  decide

/-- C7: the connection upsert updates the existing `examples` row in place when
one exists (same number of rows, same number of `examples` rows, every row
carrying the found id ends with the portable URI, all other rows untouched) and
otherwise appends exactly one new `examples` row with the portable URI; in both
cases the returned id is that row's id. -/
theorem fix_examples_db_connection_spec (path uuidHex now : String) (dbs : List DbRow)
    (hids : (dbs.map (·.id)).Nodup) :
    (dbs.find? (fun r => r.database_name == "examples") = none →
      (fix_examples_db_connection path uuidHex now dbs).1.length = dbs.length + 1
      ∧ (((fix_examples_db_connection path uuidHex now dbs).1.filter
            (fun r => r.database_name == "examples")).length = 1)
      ∧ ∃ r ∈ (fix_examples_db_connection path uuidHex now dbs).1,
          r.database_name = "examples" ∧ r.sqlalchemy_uri = portableUri path
          ∧ (fix_examples_db_connection path uuidHex now dbs).2 = r.id)
    ∧ (∀ r0, dbs.find? (fun r => r.database_name == "examples") = some r0 →
      (fix_examples_db_connection path uuidHex now dbs).1.length = dbs.length
      ∧ ((fix_examples_db_connection path uuidHex now dbs).1.filter
            (fun r => r.database_name == "examples")).length
          = (dbs.filter (fun r => r.database_name == "examples")).length
      ∧ (fix_examples_db_connection path uuidHex now dbs).2 = r0.id
      ∧ (∀ x ∈ (fix_examples_db_connection path uuidHex now dbs).1,
          x.id = r0.id → x.database_name = "examples" ∧ x.sqlalchemy_uri = portableUri path)
      ∧ ∀ x ∈ dbs, x.id ≠ r0.id → x ∈ (fix_examples_db_connection path uuidHex now dbs).1) := by
  constructor
  · intro hnone
    have hall : ∀ r ∈ dbs, ¬ r.database_name = "examples" := by
      intro r hr
      have := List.find?_eq_none.mp hnone r hr
      simpa using this
    have hfix : fix_examples_db_connection path uuidHex now dbs =
        (dbs ++ [{ id := nextId (dbs.map (·.id)), database_name := "examples",
                   sqlalchemy_uri := portableUri path, uuidHex := uuidHex,
                   expose_in_sqllab := true, allow_dml := true,
                   allow_file_upload := true, changed_on := now }],
         nextId (dbs.map (·.id))) := by
      simp [fix_examples_db_connection, hnone]
    rw [hfix]
    refine ⟨by simp, ?_, ?_⟩
    · rw [List.filter_append]
      have h1 : dbs.filter (fun r => r.database_name == "examples") = [] := by
        rw [List.filter_eq_nil_iff]
        intro r hr
        simpa using hall r hr
      simp [h1]
    · exact ⟨_, List.mem_append_right _ (List.mem_singleton_self _), rfl, rfl, rfl⟩
  · intro r0 hsome
    have hr0mem : r0 ∈ dbs := List.mem_of_find?_eq_some hsome
    have hr0name : r0.database_name = "examples" := by
      have := List.find?_some hsome
      simpa using this
    have hinj : ∀ x ∈ dbs, ∀ y ∈ dbs, x.id = y.id → x = y :=
      fun x hx y hy hxy => List.inj_on_of_nodup_map hids hx hy hxy
    have hfix : fix_examples_db_connection path uuidHex now dbs =
        (dbs.map (fun x => if x.id = r0.id
            then updateExamplesRow (portableUri path) uuidHex now x else x), r0.id) := by
      simp [fix_examples_db_connection, hsome]
    rw [hfix]
    refine ⟨by simp, ?_, rfl, ?_, ?_⟩
    · rw [← List.countP_eq_length_filter, ← List.countP_eq_length_filter, List.countP_map]
      apply List.countP_congr
      intro x _
      by_cases h : x.id = r0.id <;> simp [h, updateExamplesRow]
    · intro x hx hxid
      obtain ⟨y, hy, hyx⟩ := List.mem_map.mp hx
      by_cases h : y.id = r0.id
      · have : y = r0 := hinj y hy r0 hr0mem h
        subst this
        simp only [if_pos rfl] at hyx
        constructor
        · rw [← hyx]
          simpa [updateExamplesRow] using hr0name
        · rw [← hyx]
          rfl
      · rw [if_neg h] at hyx
        exact absurd (hyx ▸ hxid) h
    · intro x hx hxid
      have : (fun y => if y.id = r0.id then updateExamplesRow (portableUri path) uuidHex now y else y) x = x := by
        simp [hxid]
      exact this ▸ List.mem_map_of_mem _ hx

/-- Closed witness: on the empty `dbs` table the upsert inserts exactly one
`examples` row carrying the portable URI. -/
theorem fix_examples_db_connection_spec_witness :
    ((fix_examples_db_connection "C:\\proj\\examples.db" "u" "t" []).1.filter
        (fun r => r.database_name == "examples")).length = 1 := by
  exact ((fix_examples_db_connection_spec "C:\\proj\\examples.db" "u" "t" []
    (by simp)).1 (by rfl)).2.1

theorem insSorted_perm (x : Station × Rat) (l : List (Station × Rat)) :
    (insSorted x l).Perm (x :: l) := by
  induction l with
  | nil => exact List.Perm.refl _
  | cons y t ih =>
    by_cases h : y.2 ≤ x.2
    · simpa [insSorted, h] using ((ih.cons y).trans (List.Perm.swap x y t))
    · simp [insSorted, h]

theorem foldl_insSorted_perm (l acc : List (Station × Rat)) :
    (l.foldl (fun a x => insSorted x a) acc).Perm (acc ++ l) := by
  induction l generalizing acc with
  | nil => simp
  | cons x t ih =>
    refine (ih (insSorted x acc)).trans ?_
    have h2 : (insSorted x acc ++ t).Perm ((x :: acc) ++ t) :=
      (insSorted_perm x acc).append_right t
    have h3 : (x :: (acc ++ t)).Perm (acc ++ x :: t) := List.perm_middle.symm
    exact h2.trans (by simpa using h3)

theorem sortByDist_perm (l : List (Station × Rat)) : (sortByDist l).Perm l := by
  simpa [sortByDist] using foldl_insSorted_perm l []

theorem insSorted_pairwise (x : Station × Rat) (l : List (Station × Rat))
    (h : l.Pairwise (fun a b => a.2 ≤ b.2)) :
    (insSorted x l).Pairwise (fun a b => a.2 ≤ b.2) := by
  induction l with
  | nil => simp [insSorted]
  | cons y t ih =>
    rcases List.pairwise_cons.mp h with ⟨hy, ht⟩
    by_cases hle : y.2 ≤ x.2
    · rw [insSorted, if_pos hle]
      refine List.pairwise_cons.mpr ⟨?_, ih ht⟩
      intro z hz
      rcases List.mem_cons.mp ((insSorted_perm x t).mem_iff.mp hz) with rfl | hzt
      · exact hle
      · exact hy z hzt
    · rw [insSorted, if_neg hle]
      have hxy : x.2 ≤ y.2 := le_of_not_le hle
      refine List.pairwise_cons.mpr ⟨?_, h⟩
      intro z hz
      rcases List.mem_cons.mp hz with rfl | hzt
      · exact hxy
      · exact hxy.trans (hy z hzt)

theorem sortByDist_pairwise (l : List (Station × Rat)) :
    (sortByDist l).Pairwise (fun a b => a.2 ≤ b.2) := by
  have aux : ∀ (m acc : List (Station × Rat)),
      acc.Pairwise (fun a b => a.2 ≤ b.2) →
      (m.foldl (fun a x => insSorted x a) acc).Pairwise (fun a b => a.2 ≤ b.2) := by
    intro m
    induction m with
    | nil => intro acc h; exact h
    | cons x t ih => intro acc h; exact ih (insSorted x acc) (insSorted_pairwise x acc h)
  simpa [sortByDist] using aux l [] (by simp)

theorem strictCloser_lt_of_mem_take (ys : List (Station × Rat))
    (hs : ys.Pairwise (fun a b => a.2 ≤ b.2)) (n : Nat) (y : Station × Rat)
    (hy : y ∈ ys.take n) :
    (ys.filter (fun z => z.2 < y.2)).length < n := by
  induction ys generalizing n with
  | nil => simp at hy
  | cons z t ih =>
    cases n with
    | zero => simp at hy
    | succ m =>
      rcases List.pairwise_cons.mp hs with ⟨hz, ht⟩
      rw [List.take_succ_cons] at hy
      rcases List.mem_cons.mp hy with rfl | hyt
      · have h2 : t.filter (fun w => w.2 < y.2) = [] := by
          rw [List.filter_eq_nil_iff]
          intro w hw
          simpa using not_lt_of_le (hz w hw)
        simp [List.filter_cons, lt_irrefl, h2]
      · have hlen := ih ht m hyt
        rw [List.filter_cons]
        by_cases h : z.2 < y.2
        · simpa [h] using Nat.succ_lt_succ hlen
        · simpa [h] using Nat.lt_succ_of_lt hlen

theorem routesOf_fst_eq (d : Rat → Rat → Rat → Rat → Rat) (stations : List Station)
    (o : Station) (x : Station × Station)
    (hx : x ∈ (nearestFour d (mainStations stations) o).filterMap
      (fun p => if o.id < p.1.id then some (o, p.1) else none)) :
    x.1 = o := by
  obtain ⟨p, _, heq⟩ := List.mem_filterMap.mp hx
  by_cases h : o.id < p.1.id
  · rw [if_pos h] at heq
    have := Option.some.inj heq
    rw [← this]
  · rw [if_neg h] at heq
    exact absurd heq Option.noConfusion

/-- C5: routes are exactly the pairs (origin, dest) of main stations with
`origin.id < dest.id` and dest among the four nearest other main stations to
origin; no reversed pair ever also occurs, no route is a self-loop, every
nearest-four entry is another main station with at most three strictly closer
candidates, and (given distinct station ids) the route list has no duplicates,
so no pair of stations appears in more than one route. -/
theorem generate_routes_spec (d : Rat → Rat → Rat → Rat → Rat)
    (stations : List Station)
    (hids : ((mainStations stations).map (·.id)).Nodup) :
    (∀ o dst, (o, dst) ∈ routesOf d stations ↔
        o ∈ mainStations stations
        ∧ dst ∈ (nearestFour d (mainStations stations) o).map (·.1)
        ∧ o.id < dst.id)
    ∧ (∀ o dst, (o, dst) ∈ routesOf d stations → (dst, o) ∉ routesOf d stations)
    ∧ (∀ o dst, (o, dst) ∈ routesOf d stations → o.id ≠ dst.id)
    ∧ (∀ o, ∀ p ∈ nearestFour d (mainStations stations) o,
        p.1 ∈ mainStations stations ∧ p.1.id ≠ o.id
        ∧ ((stationDistances d (mainStations stations) o).filter
            (fun z => z.2 < p.2)).length < 4)
    ∧ (routesOf d stations).Nodup := by
  have hmem : ∀ o dst, (o, dst) ∈ routesOf d stations ↔
      o ∈ mainStations stations
      ∧ dst ∈ (nearestFour d (mainStations stations) o).map (·.1)
      ∧ o.id < dst.id := by
    intro o dst
    simp only [routesOf, List.mem_flatMap, List.mem_filterMap, List.mem_map]
    constructor
    · rintro ⟨a, ha, p, hp, heq⟩
      by_cases hlt : a.id < p.1.id
      · rw [if_pos hlt] at heq
        have hh := Option.some.inj heq
        rw [Prod.ext_iff] at hh
        obtain ⟨rfl, rfl⟩ := hh
        exact ⟨ha, ⟨p, hp, rfl⟩, hlt⟩
      · rw [if_neg hlt] at heq
        exact absurd heq Option.noConfusion
    · rintro ⟨ho, ⟨p, hp, hfst⟩, hlt⟩
      refine ⟨o, ho, p, hp, ?_⟩
      rw [if_pos (hfst ▸ hlt), hfst]
  have hnear : ∀ o, ∀ p ∈ nearestFour d (mainStations stations) o,
      p.1 ∈ mainStations stations ∧ p.1.id ≠ o.id
      ∧ ((stationDistances d (mainStations stations) o).filter
          (fun z => z.2 < p.2)).length < 4 := by
    intro o p hp
    have hsorted := sortByDist_pairwise (stationDistances d (mainStations stations) o)
    have hclose := strictCloser_lt_of_mem_take _ hsorted 4 p hp
    have hmemSort : p ∈ sortByDist (stationDistances d (mainStations stations) o) :=
      List.mem_of_mem_take hp
    have hmemDist : p ∈ stationDistances d (mainStations stations) o :=
      (sortByDist_perm _).mem_iff.mp hmemSort
    obtain ⟨s, hs, hps⟩ := List.mem_map.mp hmemDist
    have hsfilter := List.mem_filter.mp hs
    refine ⟨?_, ?_, ?_⟩
    · rw [← hps]
      exact hsfilter.1
    · rw [← hps]
      simpa using hsfilter.2
    · have hper := ((sortByDist_perm (stationDistances d (mainStations stations) o)).filter
        (fun z => z.2 < p.2)).length_eq
      rw [← hper]
      exact hclose
  refine ⟨hmem, ?_, ?_, hnear, ?_⟩
  · intro o dst h1 h2
    have ha := ((hmem o dst).mp h1).2.2
    have hb := ((hmem dst o).mp h2).2.2
    exact absurd hb (not_lt_of_lt ha)
  · intro o dst h1
    exact Nat.ne_of_lt (((hmem o dst).mp h1).2.2)
  · have hndms : (mainStations stations).Nodup := List.Nodup.of_map _ hids
    rw [routesOf, List.nodup_flatMap]
    constructor
    · intro o _
      have hfsts : ((nearestFour d (mainStations stations) o).map (·.1)).Nodup := by
        have hfe : (stationDistances d (mainStations stations) o).map (·.1)
            = (mainStations stations).filter (fun s => ! (s.id == o.id)) := by
          rw [stationDistances, List.map_map]
          exact List.map_id' _
        have h1 : ((stationDistances d (mainStations stations) o).map (·.1)).Nodup := by
          rw [hfe]
          exact hndms.filter _
        have h2 := (sortByDist_perm (stationDistances d (mainStations stations) o)).map (·.1)
        have h3 : ((sortByDist (stationDistances d (mainStations stations) o)).map (·.1)).Nodup :=
          h2.nodup_iff.mpr h1
        have h4 : ((nearestFour d (mainStations stations) o).map (·.1)).Sublist
            ((sortByDist (stationDistances d (mainStations stations) o)).map (·.1)) :=
          (List.take_sublist 4 _).map _
        exact h4.nodup h3
      have heq : (nearestFour d (mainStations stations) o).filterMap
          (fun p => if o.id < p.1.id then some (o, p.1) else none)
          = ((nearestFour d (mainStations stations) o).map (·.1)).filterMap
            (fun s => if o.id < s.id then some (o, s) else none) := by
        rw [List.filterMap_map]
        rfl
      rw [heq]
      refine List.Nodup.filterMap ?_ hfsts
      intro a a' b hba hba'
      by_cases h1 : o.id < a.id
      · rw [Option.mem_def, if_pos h1] at hba
        by_cases h2 : o.id < a'.id
        · rw [Option.mem_def, if_pos h2] at hba'
          have e1 := Option.some.inj hba
          have e2 := Option.some.inj hba'
          have hoa : (o, a) = (o, a') := by
            rw [e1, e2]
          rw [Prod.ext_iff] at hoa
          exact hoa.2
        · rw [Option.mem_def, if_neg h2] at hba'
          exact absurd hba' Option.noConfusion
      · rw [Option.mem_def, if_neg h1] at hba
        exact absurd hba Option.noConfusion
    · have hpw : (mainStations stations).Pairwise (fun a b => a.id ≠ b.id) :=
        List.pairwise_map.mp hids
      refine hpw.imp ?_
      intro a b hab
      intro x hxa hxb
      have h1 : x.1 = a := routesOf_fst_eq d stations a x hxa
      have h2 : x.1 = b := routesOf_fst_eq d stations b x hxb
      exact hab (h1 ▸ h2 ▸ rfl)

/-- Closed witness: `generate_routes_spec` applied to three concrete main
stations with a concrete squared-euclidean distance. -/
theorem generate_routes_spec_witness :
    (routesOf (fun la lo lb lob => (la - lb) * (la - lb) + (lo - lob) * (lo - lob))
      [⟨1, "А-Главный", 0, 0⟩, ⟨2, "Б-Главный", 3, 0⟩, ⟨3, "В-Главный", 10, 0⟩]).Nodup := by
  exact (generate_routes_spec
    (fun la lo lb lob => (la - lb) * (la - lb) + (lo - lob) * (lo - lob))
    [⟨1, "А-Главный", 0, 0⟩, ⟨2, "Б-Главный", 3, 0⟩, ⟨3, "В-Главный", 10, 0⟩]
    (by decide)).2.2.2.2

/- ─────────────────────  Fold lemmas for the seeding phases  ───────────────────── -/

theorem foldr_max_append (l : List Nat) (k : Nat) :
    List.foldr max 0 (l ++ [k]) = max (List.foldr max 0 l) k := by
  induction l with
  | nil => simp [Nat.max_comm]
  | cons a t ih => simp [ih, Nat.max_assoc]

theorem nextId_append (ids : List Nat) :
    nextId (ids ++ [nextId ids]) = nextId ids + 1 := by
  unfold nextId
  rw [foldr_max_append]
  have h : max (List.foldr max 0 ids) (List.foldr max 0 ids + 1)
      = List.foldr max 0 ids + 1 := Nat.max_eq_right (Nat.le_succ _)
  rw [h]

/-- Frame and shape of the `create_charts` fold: every other table is
untouched, the slice (name, datasource) pairs of the six charts are appended in
order, and the returned id map extends the accumulator with one strictly
increasing fresh id per chart. -/
theorem chartsFold_spec (dataset_ids : List (String × Nat)) (L : List ChartDef) :
    ∀ st acc,
    ((L.foldl (chartStep dataset_ids) (st, acc)).1.dbs = st.dbs)
    ∧ ((L.foldl (chartStep dataset_ids) (st, acc)).1.tables = st.tables)
    ∧ ((L.foldl (chartStep dataset_ids) (st, acc)).1.table_columns = st.table_columns)
    ∧ ((L.foldl (chartStep dataset_ids) (st, acc)).1.dashboards = st.dashboards)
    ∧ ((L.foldl (chartStep dataset_ids) (st, acc)).1.dashboard_slices = st.dashboard_slices)
    ∧ ((L.foldl (chartStep dataset_ids) (st, acc)).1.slices.map
          (fun s => (s.slice_name, s.datasource_name))
        = st.slices.map (fun s => (s.slice_name, s.datasource_name))
          ++ L.map (fun ch => (ch.name, datasetTableName ch.dataset_key)))
    ∧ (∃ tail, (L.foldl (chartStep dataset_ids) (st, acc)).2 = acc ++ tail
        ∧ tail.map (·.1) = L.map (·.key)
        ∧ (∀ pr ∈ tail, nextId (st.slices.map (·.id)) ≤ pr.2)
        ∧ (tail.map (·.2)).Pairwise (· < ·)) := by
  induction L with
  | nil =>
    intro st acc
    exact ⟨rfl, rfl, rfl, rfl, rfl, by simp, [], by simp, by simp, by simp, by simp⟩
  | cons ch t ih =>
    intro st acc
    have hstep : chartStep dataset_ids (st, acc) ch =
        ({ st with slices := st.slices ++
            [{ id := nextId (st.slices.map (·.id)), slice_name := ch.name,
               viz_type := ch.viz_type,
               datasource_id := lookupId dataset_ids ch.dataset_key,
               datasource_name := datasetTableName ch.dataset_key }] },
         acc ++ [(ch.key, nextId (st.slices.map (·.id)))]) := rfl
    have hfold : (ch :: t).foldl (chartStep dataset_ids) (st, acc)
        = t.foldl (chartStep dataset_ids) (chartStep dataset_ids (st, acc) ch) := rfl
    rw [hfold, hstep]
    obtain ⟨hdbs, htab, hcols, hdash, hds, hsl, tail, htail, hkeys, hlb, hpw⟩ :=
      ih ({ st with slices := st.slices ++
            [{ id := nextId (st.slices.map (·.id)), slice_name := ch.name,
               viz_type := ch.viz_type,
               datasource_id := lookupId dataset_ids ch.dataset_key,
               datasource_name := datasetTableName ch.dataset_key }] })
        (acc ++ [(ch.key, nextId (st.slices.map (·.id)))])
    have hnext : nextId (((st.slices ++
        [{ id := nextId (st.slices.map (·.id)), slice_name := ch.name,
           viz_type := ch.viz_type,
           datasource_id := lookupId dataset_ids ch.dataset_key,
           datasource_name := datasetTableName ch.dataset_key }]) : List SliceRow).map (·.id))
        = nextId (st.slices.map (·.id)) + 1 := by
      rw [List.map_append]
      exact nextId_append _
    refine ⟨hdbs, htab, hcols, hdash, hds, ?_, (ch.key, nextId (st.slices.map (·.id))) :: tail,
      ?_, ?_, ?_, ?_⟩
    · rw [hsl]
      simp
    · rw [htail]
      simp
    · simp [hkeys]
    · intro pr hpr
      rcases List.mem_cons.mp hpr with rfl | hpr
      · exact Nat.le_refl _
      · have := hlb pr hpr
        rw [hnext] at this
        omega
    · rw [List.map_cons]
      refine List.pairwise_cons.mpr ⟨?_, hpw⟩
      intro m hm
      obtain ⟨pr, hpr, rfl⟩ := List.mem_map.mp hm
      have := hlb pr hpr
      rw [hnext] at this
      omega

theorem filter_clear_append (C0 : List ColumnRow) (R0 : List ColMeta) (n0 tid : Nat)
    (h : tid ≠ n0) :
    ((C0.filter (fun c => ! (c.table_id == n0)))
      ++ R0.map (fun c => ColumnRow.mk n0 c.column_name c.typ c.is_dttm c.groupby c.filterable)).filter
        (fun c => c.table_id == tid)
    = C0.filter (fun c => c.table_id == tid) := by
  rw [List.filter_append]
  have h1 : (R0.map (fun c =>
      ColumnRow.mk n0 c.column_name c.typ c.is_dttm c.groupby c.filterable)).filter
        (fun c => c.table_id == tid) = [] := by
    rw [List.filter_eq_nil_iff]
    intro c hc
    obtain ⟨c0, _, rfl⟩ := List.mem_map.mp hc
    simp
    omega
  have h2 : ((C0.filter (fun c => ! (c.table_id == n0))).filter (fun c => c.table_id == tid))
      = C0.filter (fun c => c.table_id == tid) := by
    rw [List.filter_filter]
    apply List.filter_congr
    intro c _
    by_cases hc : c.table_id = tid
    · simp [hc, h]
    · simp [hc]
  rw [h1, h2, List.append_nil]

theorem filter_clear_append_self (C0 : List ColumnRow) (R0 : List ColMeta) (n0 : Nat) :
    ((C0.filter (fun c => ! (c.table_id == n0)))
      ++ R0.map (fun c => ColumnRow.mk n0 c.column_name c.typ c.is_dttm c.groupby c.filterable)).filter
        (fun c => c.table_id == n0)
    = R0.map (fun c => ColumnRow.mk n0 c.column_name c.typ c.is_dttm c.groupby c.filterable) := by
  rw [List.filter_append]
  have h1 : ((C0.filter (fun c => ! (c.table_id == n0))).filter (fun c => c.table_id == n0))
      = [] := by
    rw [List.filter_filter, List.filter_eq_nil_iff]
    intro c _
    cases hcn : (c.table_id == n0) <;> simp [hcn]
  have h2 : (R0.map (fun c =>
      ColumnRow.mk n0 c.column_name c.typ c.is_dttm c.groupby c.filterable)).filter
        (fun c => c.table_id == n0)
      = R0.map (fun c => ColumnRow.mk n0 c.column_name c.typ c.is_dttm c.groupby c.filterable) := by
    rw [List.filter_eq_self]
    intro c hc
    obtain ⟨c0, _, rfl⟩ := List.mem_map.mp hc
    simp
  rw [h1, h2, List.nil_append]

/-- Frame and shape of the `register_datasets` fold: the chart and dashboard
tables are untouched, one tables row per dataset is appended in order, column
rows with a table id smaller than every fresh id are untouched, and for every
dataset the column rows carrying its assigned id are exactly the rows built
from its CSV — one per inferred column. -/
theorem registerFold_spec (pyInt pyFloat : String → Bool)
    (csvData : String → List String × List (List String)) (db_id : Nat)
    (L : List DatasetDef) :
    ∀ p : MetaState × List (String × Nat),
    ((L.foldl (registerOne pyInt pyFloat csvData db_id) p).1.dbs = p.1.dbs)
    ∧ ((L.foldl (registerOne pyInt pyFloat csvData db_id) p).1.slices = p.1.slices)
    ∧ ((L.foldl (registerOne pyInt pyFloat csvData db_id) p).1.dashboards = p.1.dashboards)
    ∧ ((L.foldl (registerOne pyInt pyFloat csvData db_id) p).1.dashboard_slices
        = p.1.dashboard_slices)
    ∧ ((L.foldl (registerOne pyInt pyFloat csvData db_id) p).1.tables.map (·.table_name)
        = p.1.tables.map (·.table_name) ++ L.map (·.table_name))
    ∧ (∀ tid : Nat, tid < nextId (p.1.tables.map (·.id)) →
        (L.foldl (registerOne pyInt pyFloat csvData db_id) p).1.table_columns.filter
            (fun c => c.table_id == tid)
          = p.1.table_columns.filter (fun c => c.table_id == tid))
    ∧ (∀ ds ∈ L, ∃ tid,
        (ds.key, tid) ∈ (L.foldl (registerOne pyInt pyFloat csvData db_id) p).2 ∧
        (L.foldl (registerOne pyInt pyFloat csvData db_id) p).1.table_columns.filter
            (fun c => c.table_id == tid)
          = (get_columns_from_csv pyInt pyFloat (csvData ds.csv).1 (csvData ds.csv).2).map
              (fun c => ColumnRow.mk tid c.column_name c.typ c.is_dttm c.groupby c.filterable))
    ∧ (∃ tail, (L.foldl (registerOne pyInt pyFloat csvData db_id) p).2 = p.2 ++ tail
        ∧ tail.map (·.1) = L.map (·.key)) := by
  induction L with
  | nil =>
    intro p
    exact ⟨rfl, rfl, rfl, rfl, by simp, fun _ _ => rfl, by simp, [], by simp, by simp⟩
  | cons ds t ih =>
    intro p
    have hfold : (ds :: t).foldl (registerOne pyInt pyFloat csvData db_id) p
        = t.foldl (registerOne pyInt pyFloat csvData db_id)
            (registerOne pyInt pyFloat csvData db_id p ds) := rfl
    obtain ⟨hdbs, hsl, hdash, hds2, hnames, hframe, hdata, tail, htail, hkeys⟩ :=
      ih (registerOne pyInt pyFloat csvData db_id p ds)
    have e1 : (registerOne pyInt pyFloat csvData db_id p ds).1.dbs = p.1.dbs := rfl
    have e2 : (registerOne pyInt pyFloat csvData db_id p ds).1.slices = p.1.slices := rfl
    have e3 : (registerOne pyInt pyFloat csvData db_id p ds).1.dashboards
        = p.1.dashboards := rfl
    have e4 : (registerOne pyInt pyFloat csvData db_id p ds).1.dashboard_slices
        = p.1.dashboard_slices := rfl
    have e5 : (registerOne pyInt pyFloat csvData db_id p ds).1.tables.map (·.table_name)
        = p.1.tables.map (·.table_name) ++ [ds.table_name] := by
      simp [registerOne]
    have e6 : nextId ((registerOne pyInt pyFloat csvData db_id p ds).1.tables.map (·.id))
        = nextId (p.1.tables.map (·.id)) + 1 := by
      have hmapids : (registerOne pyInt pyFloat csvData db_id p ds).1.tables.map (·.id)
          = p.1.tables.map (·.id) ++ [nextId (p.1.tables.map (·.id))] := by
        simp [registerOne]
      rw [hmapids]
      exact nextId_append _
    have e7 : (registerOne pyInt pyFloat csvData db_id p ds).1.table_columns
        = (p.1.table_columns.filter
            (fun c => ! (c.table_id == nextId (p.1.tables.map (·.id)))))
          ++ (get_columns_from_csv pyInt pyFloat (csvData ds.csv).1 (csvData ds.csv).2).map
              (fun c => ColumnRow.mk (nextId (p.1.tables.map (·.id)))
                c.column_name c.typ c.is_dttm c.groupby c.filterable) := rfl
    have e8 : (registerOne pyInt pyFloat csvData db_id p ds).2
        = p.2 ++ [(ds.key, nextId (p.1.tables.map (·.id)))] := rfl
    rw [hfold]
    refine ⟨hdbs.trans e1, hsl.trans e2, hdash.trans e3, hds2.trans e4, ?_, ?_, ?_, ?_⟩
    · rw [hnames, e5]
      simp
    · intro tid htid
      have h1 := hframe tid (by rw [e6]; omega)
      rw [h1, e7]
      exact filter_clear_append _ _ _ _ (by omega)
    · intro ds0 hds0
      rcases List.mem_cons.mp hds0 with rfl | hds0t
      · refine ⟨nextId (p.1.tables.map (·.id)), ?_, ?_⟩
        · rw [htail, e8]
          simp
        · have h1 := hframe (nextId (p.1.tables.map (·.id))) (by rw [e6]; omega)
          rw [h1, e7]
          exact filter_clear_append_self _ _ _
      · exact hdata ds0 hds0t
    · refine ⟨(ds.key, nextId (p.1.tables.map (·.id))) :: tail, ?_, ?_⟩
      · rw [htail, e8]
        simp
      · simp [hkeys]

/-- C4 counterexample: a CSV column named `date` whose sampled values all parse
as ints is inferred INTEGER by `guess_sqlite_type`, yet every column row
registered from such a CSV carries type STRING — the `date` rule overrides the
inferred type, contradicting the claim that each column row carries the
inferred INTEGER/FLOAT/STRING type. -/
theorem register_datasets_spec_cex :
    guess_sqlite_type (fun v => v == "5") (fun v => v == "5") ["5"] = "INTEGER"
    ∧ ((register_datasets (fun v => v == "5") (fun v => v == "5")
          (fun _ => (["date"], [["5"]])) 1 (MetaState.mk [] [] [] [] [] [])).1.table_columns.map
        (fun c => c.typ))
      = ["STRING", "STRING", "STRING", "STRING", "STRING", "STRING"] := by
  constructor
  · decide
  · decide

/-- C4 (amended): `register_datasets` appends exactly one tables row per
dataset; for every dataset the column rows carrying its assigned table id are
exactly one row per CSV column; each column row has `filterable = 1` always,
`is_dttm = 1` exactly for a column named `date`, `groupby = 0` exactly when
the inferred SQLite type is REAL, and carries the inferred type mapped
INTEGER→INTEGER, REAL→FLOAT, TEXT→STRING — except that a column named `date`
always carries type STRING. -/
theorem register_datasets_spec (pyInt pyFloat : String → Bool)
    (csvData : String → List String × List (List String)) (db_id : Nat)
    (st : MetaState) (name ctyp : String) (headers : List String)
    (rows : List (List String)) :
    ((register_datasets pyInt pyFloat csvData db_id st).1.tables.map (·.table_name)
        = st.tables.map (·.table_name) ++ DATASETS.map (·.table_name))
    ∧ (∀ ds ∈ DATASETS, ∃ tid,
        (ds.key, tid) ∈ (register_datasets pyInt pyFloat csvData db_id st).2 ∧
        (register_datasets pyInt pyFloat csvData db_id st).1.table_columns.filter
            (fun c => c.table_id == tid)
          = (get_columns_from_csv pyInt pyFloat (csvData ds.csv).1 (csvData ds.csv).2).map
              (fun c => ColumnRow.mk tid c.column_name c.typ c.is_dttm c.groupby c.filterable))
    ∧ ((get_columns_from_csv pyInt pyFloat headers rows).length = headers.length)
    ∧ ((colMetaOf name ctyp).filterable = true)
    ∧ ((colMetaOf name ctyp).is_dttm = true ↔ name = "date")
    ∧ ((colMetaOf name ctyp).groupby = false ↔ ctyp = "REAL")
    ∧ (name ≠ "date" → (colMetaOf name ctyp).typ
        = (if ctyp = "INTEGER" then "INTEGER"
           else if ctyp = "REAL" then "FLOAT" else "STRING"))
    ∧ (name = "date" → (colMetaOf name ctyp).typ = "STRING")
    ∧ (headers ≠ [] → get_columns_from_csv pyInt pyFloat headers rows
        = (infer_schema pyInt pyFloat headers rows).map (fun q => colMetaOf q.1 q.2)) := by
  obtain ⟨_, _, _, _, hnames, _, hdata, _⟩ :=
    registerFold_spec pyInt pyFloat csvData db_id DATASETS (st, [])
  refine ⟨hnames, hdata, ?_, rfl, ?_, ?_, ?_, ?_, ?_⟩
  · by_cases h : headers = []
    · simp [get_columns_from_csv, h]
    · simp [get_columns_from_csv, h, infer_schema]
  · simp [colMetaOf]
  · simp only [colMetaOf]
    by_cases h1 : ctyp = "INTEGER"
    · simp [h1]
    · by_cases h2 : ctyp = "REAL"
      · simp [h1, h2]
      · simp [h1, h2]
  · intro h
    simp [colMetaOf, h]
  · intro h
    simp [colMetaOf, h]
  · intro h
    simp [get_columns_from_csv, h]

/-- Closed witness: `register_datasets_spec` at concrete trivial parsers, CSV
content and the empty metadata state, for the first dataset. -/
theorem register_datasets_spec_witness :
    ∃ tid, ("ds_stations", tid) ∈ (register_datasets (fun _ => false) (fun _ => false)
        (fun _ => ([], [])) 1 (MetaState.mk [] [] [] [] [] [])).2 ∧
      (register_datasets (fun _ => false) (fun _ => false) (fun _ => ([], []))
          1 (MetaState.mk [] [] [] [] [] [])).1.table_columns.filter
          (fun c => c.table_id == tid)
        = (get_columns_from_csv (fun _ => false) (fun _ => false) [] []).map
            (fun c => ColumnRow.mk tid c.column_name c.typ c.is_dttm c.groupby c.filterable) := by
  exact (register_datasets_spec (fun _ => false) (fun _ => false) (fun _ => ([], []))
      1 (MetaState.mk [] [] [] [] [] []) "x" "y" [] []).2.1
    ⟨"ds_stations", "rzd_stations", "Станции РЖД — 50 крупнейших станций России",
      "rzd_stations.csv", none⟩ (by decide)

theorem lookupId_mem (assoc : List (String × Nat)) (key : String)
    (h : key ∈ assoc.map (·.1)) : lookupId assoc key ∈ assoc.map (·.2) := by
  induction assoc with
  | nil => simp at h
  | cons pr t ih =>
    by_cases hk : (pr.1 == key) = true
    · have hv : lookupId (pr :: t) key = pr.2 := by
        simp only [lookupId, List.find?]
        rw [hk]
      rw [hv]
      exact List.mem_map.mpr ⟨pr, List.mem_cons_self _ _, rfl⟩
    · have hkf : (pr.1 == key) = false := by
        simpa using hk
      have hv : lookupId (pr :: t) key = lookupId t key := by
        simp only [lookupId, List.find?]
        rw [hkf]
      rw [hv]
      have hkey : key ∈ t.map (·.1) := by
        rcases List.mem_map.mp h with ⟨q, hq, rfl⟩
        rcases List.mem_cons.mp hq with rfl | hq
        · exact absurd (by simp) hk
        · exact List.mem_map_of_mem _ hq
      exact List.mem_cons_of_mem _ (ih hkey)

theorem filter_beq_length_of_nodup (l : List Nat) (hl : l.Nodup) (a : Nat) (ha : a ∈ l) :
    (l.filter (fun x => x == a)).length = 1 := by
  induction l with
  | nil => simp at ha
  | cons b t ih =>
    rcases List.mem_cons.mp ha with rfl | hat
    · have hbt : a ∉ t := (List.nodup_cons.mp hl).1
      have hnil : t.filter (fun x => x == a) = [] := by
        rw [List.filter_eq_nil_iff]
        intro x hx
        simp only [beq_iff_eq]
        rintro rfl
        exact hbt hx
      simp [List.filter_cons, hnil]
    · have hba : ¬ (b == a) = true := by
        simp only [beq_iff_eq]
        rintro rfl
        exact (List.nodup_cons.mp hl).1 hat
      simp [List.filter_cons, hba, ih (List.nodup_cons.mp hl).2 hat]

/-- C8: after `create_charts` and `create_dashboard`, exactly one dashboards
row (slug `rzd_analytics`) is inserted, carrying the layout tree: ROOT contains
GRID, GRID contains three ROW nodes, each ROW holds exactly two CHART
placeholders whose widths sum to 12; the CHART nodes carry exactly the six
chart ids just assigned by `create_charts` (each a member of its id map, which
is duplicate-free), and for every chart exactly one `dashboard_slices` row
links it to the new dashboard's id. -/
theorem create_dashboard_spec (ds_ids : List (String × Nat)) (st : MetaState) :
    (((create_charts ds_ids st).2.map (·.2)).Nodup)
    ∧ ((create_charts ds_ids st).2.map (·.1) = CHARTS.map (·.key))
    ∧ ((create_dashboard (create_charts ds_ids st).2 (create_charts ds_ids st).1).1.dashboards
        = (create_charts ds_ids st).1.dashboards ++
          [⟨(create_dashboard (create_charts ds_ids st).2 (create_charts ds_ids st).1).2,
            "РЖД Аналитика", "rzd_analytics",
            positionOf (lookupId (create_charts ds_ids st).2 "ch_total_pass")
              (lookupId (create_charts ds_ids st).2 "ch_monthly_bar")
              (lookupId (create_charts ds_ids st).2 "ch_cargo_pie")
              (lookupId (create_charts ds_ids st).2 "ch_stations_tbl")
              (lookupId (create_charts ds_ids st).2 "ch_daily_line")
              (lookupId (create_charts ds_ids st).2 "ch_incidents_bar")⟩])
    ∧ (∀ a b c d e f : Nat,
        nodeLookup (positionOf a b c d e f) "ROOT_ID"
          = some ⟨"ROOT_ID", "ROOT", ["GRID_ID"], [], none⟩
        ∧ nodeLookup (positionOf a b c d e f) "GRID_ID"
          = some ⟨"GRID_ID", "GRID", ["ROW-1", "ROW-2", "ROW-3"], ["ROOT_ID"], none⟩
        ∧ (∀ rk ∈ ["ROW-1", "ROW-2", "ROW-3"], ∃ rn, nodeLookup (positionOf a b c d e f) rk
            = some rn ∧ rn.typ = "ROW" ∧ rn.children.length = 2
            ∧ (∀ ck ∈ rn.children, ∃ cn, nodeLookup (positionOf a b c d e f) ck = some cn
                ∧ cn.typ = "CHART")
            ∧ (rn.children.map (nodeWidth (positionOf a b c d e f))).sum = 12)
        ∧ nodeChartIds (positionOf a b c d e f) = [a, b, c, e, d, f])
    ∧ (∀ k ∈ ["ch_total_pass", "ch_monthly_bar", "ch_cargo_pie", "ch_stations_tbl",
          "ch_daily_line", "ch_incidents_bar"],
        lookupId (create_charts ds_ids st).2 k ∈ (create_charts ds_ids st).2.map (·.2))
    ∧ ((create_dashboard (create_charts ds_ids st).2 (create_charts ds_ids st).1).1.dashboard_slices
        = (create_charts ds_ids st).1.dashboard_slices
          ++ (create_charts ds_ids st).2.map (fun p =>
              ((create_dashboard (create_charts ds_ids st).2 (create_charts ds_ids st).1).2, p.2)))
    ∧ (∀ cid ∈ (create_charts ds_ids st).2.map (·.2),
        (((create_charts ds_ids st).2.map (fun p =>
            ((create_dashboard (create_charts ds_ids st).2 (create_charts ds_ids st).1).2, p.2))).filter
          (fun pr => pr.2 == cid)).length = 1) := by
  obtain ⟨_, _, _, _, _, _, tail, htail, hkeys, _, hpw⟩ :=
    chartsFold_spec ds_ids CHARTS st []
  have htail2 : (create_charts ds_ids st).2 = tail := by
    rw [create_charts, htail]
    simp
  have hnd : ((create_charts ds_ids st).2.map (·.2)).Nodup := by
    rw [htail2]
    exact hpw.imp (fun h => Nat.ne_of_lt h)
  have hkeys2 : (create_charts ds_ids st).2.map (·.1) = CHARTS.map (·.key) := by
    rw [htail2, hkeys]
  refine ⟨hnd, hkeys2, rfl, ?_, ?_, rfl, ?_⟩
  · intro a b c d e f
    refine ⟨rfl, rfl, ?_, rfl⟩
    intro rk hrk
    rcases List.mem_cons.mp hrk with rfl | hrk
    · refine ⟨_, rfl, rfl, rfl, ?_, rfl⟩
      intro ck hck
      rcases List.mem_cons.mp hck with rfl | hck
      · exact ⟨_, rfl, rfl⟩
      · rcases List.mem_cons.mp hck with rfl | hck
        · exact ⟨_, rfl, rfl⟩
        · simp at hck
    · rcases List.mem_cons.mp hrk with rfl | hrk
      · refine ⟨_, rfl, rfl, rfl, ?_, rfl⟩
        intro ck hck
        rcases List.mem_cons.mp hck with rfl | hck
        · exact ⟨_, rfl, rfl⟩
        · rcases List.mem_cons.mp hck with rfl | hck
          · exact ⟨_, rfl, rfl⟩
          · simp at hck
      · rcases List.mem_cons.mp hrk with rfl | hrk
        · refine ⟨_, rfl, rfl, rfl, ?_, rfl⟩
          intro ck hck
          rcases List.mem_cons.mp hck with rfl | hck
          · exact ⟨_, rfl, rfl⟩
          · rcases List.mem_cons.mp hck with rfl | hck
            · exact ⟨_, rfl, rfl⟩
            · simp at hck
        · simp at hrk
  · intro k hk
    apply lookupId_mem
    rw [hkeys2]
    rcases List.mem_cons.mp hk with rfl | hk
    · decide
    · rcases List.mem_cons.mp hk with rfl | hk
      · decide
      · rcases List.mem_cons.mp hk with rfl | hk
        · decide
        · rcases List.mem_cons.mp hk with rfl | hk
          · decide
          · rcases List.mem_cons.mp hk with rfl | hk
            · decide
            · rcases List.mem_cons.mp hk with rfl | hk
              · decide
              · simp at hk
  · intro cid hcid
    have h1 : (((create_charts ds_ids st).2.map (fun p =>
        ((create_dashboard (create_charts ds_ids st).2 (create_charts ds_ids st).1).2, p.2))).filter
          (fun pr => pr.2 == cid))
        = ((create_charts ds_ids st).2.filter (fun p => p.2 == cid)).map (fun p =>
            ((create_dashboard (create_charts ds_ids st).2 (create_charts ds_ids st).1).2, p.2)) := by
      rw [List.filter_map]
      rfl
    have h2 : (((create_charts ds_ids st).2.map (·.2)).filter (fun x => x == cid))
        = ((create_charts ds_ids st).2.filter (fun p => p.2 == cid)).map (·.2) := by
      rw [List.filter_map]
      rfl
    have h3 := filter_beq_length_of_nodup _ hnd cid hcid
    rw [h2, List.length_map] at h3
    rw [h1, List.length_map]
    exact h3

/-- Closed witness: `create_dashboard_spec` at the empty id map and metadata
state — the layout holds and the chart with id 1 is linked exactly once. -/
theorem create_dashboard_spec_witness :
    (((create_charts [] (MetaState.mk [] [] [] [] [] [])).2.map (fun p =>
        ((create_dashboard (create_charts [] (MetaState.mk [] [] [] [] [] [])).2
            (create_charts [] (MetaState.mk [] [] [] [] [] [])).1).2, p.2))).filter
      (fun pr => pr.2 == 1)).length = 1 := by
  exact (create_dashboard_spec [] (MetaState.mk [] [] [] [] [] [])).2.2.2.2.2.2
    1 (by decide)

/- ─────────────────  clean_old_rzd_data / seeding idempotence  ───────────────── -/

theorem filter_of_filter_not {α : Type} (l : List α) (p : α → Bool) :
    (l.filter (fun a => ! p a)).filter p = [] := by
  rw [List.filter_eq_nil_iff]
  intro a ha
  have h := (List.mem_filter.mp ha).2
  simp only [Bool.not_eq_true'] at h
  simp [h]

/-- What `clean_old_rzd_data` guarantees on every prior state: no `rzd_%`
dataset survives, no chart matched by name pattern or bound to an rzd dataset
survives, no `rzd_analytics` dashboard survives, no column row of an rzd
dataset and no orphaned column row survives, and no dashboard-chart link to an
rzd dashboard or demo chart survives. -/
theorem clean_old_rzd_data_clears (st : MetaState) :
    ((clean_old_rzd_data st).tables.filter (fun t => likeRzdPre t.table_name) = [])
    ∧ ((clean_old_rzd_data st).slices.filter sliceNameMatches = [])
    ∧ ((clean_old_rzd_data st).slices.filter
        (fun s => (rzdTableIdsOf st).contains s.datasource_id) = [])
    ∧ ((clean_old_rzd_data st).dashboards.filter
        (fun dsh => dsh.slug == "rzd_analytics") = [])
    ∧ ((clean_old_rzd_data st).table_columns.filter
        (fun c => (rzdTableIdsOf st).contains c.table_id) = [])
    ∧ (∀ c ∈ (clean_old_rzd_data st).table_columns,
        (((clean_old_rzd_data st).tables.map (·.id)).contains c.table_id) = true)
    ∧ ((clean_old_rzd_data st).dashboard_slices.filter
        (fun pr => (rzdDashIdsOf st).contains pr.1) = [])
    ∧ ((clean_old_rzd_data st).dashboard_slices.filter
        (fun pr => (rzdSliceIdsOf st).contains pr.2) = []) := by
  refine ⟨?_, ?_, ?_, ?_, ?_, ?_, ?_, ?_⟩
  · exact filter_of_filter_not _ _
  · exact filter_of_filter_not _ _
  · rw [List.filter_eq_nil_iff]
    intro s hs
    have h1 := List.mem_filter.mp hs
    have h2 := List.mem_filter.mp h1.1
    intro hcon
    have hmemDs : s.datasource_id ∈ rzdTableIdsOf st := by
      simpa using hcon
    have hid : s.id ∈ rzdSliceIdsOf st := by
      unfold rzdSliceIdsOf
      refine List.mem_append_left _ ?_
      refine List.mem_map_of_mem _ ?_
      exact List.mem_filter.mpr ⟨h2.1, by simpa using hmemDs⟩
    have hnot := h2.2
    simp only [Bool.not_eq_true'] at hnot
    have hnm : s.id ∉ rzdSliceIdsOf st := by
      simpa using hnot
    exact hnm hid
  · exact filter_of_filter_not _ _
  · rw [List.filter_eq_nil_iff]
    intro c hc
    have h1 := List.mem_filter.mp hc
    have h2 := List.mem_filter.mp h1.1
    have hnot := h2.2
    simp only [Bool.not_eq_true'] at hnot
    simpa using hnot
  · intro c hc
    exact (List.mem_filter.mp hc).2
  · rw [List.filter_eq_nil_iff]
    intro pr hpr
    have h1 := List.mem_filter.mp hpr
    have h2 := List.mem_filter.mp h1.1
    have hnot := h2.2
    simp only [Bool.not_eq_true'] at hnot
    simpa using hnot
  · exact filter_of_filter_not _ _

theorem create_dashboard_dash_count (chart_ids : List (String × Nat)) (st1 : MetaState) :
    ((create_dashboard chart_ids st1).1.dashboards.filter
      (fun dsh => dsh.slug == "rzd_analytics")).length
    = (st1.dashboards.filter (fun dsh => dsh.slug == "rzd_analytics")).length + 1 := by
  simp [create_dashboard, List.filter_append]

/-- Every demo dataset's table name matches the `rzd_%` cleanup pattern. -/
theorem datasets_names_like_rzd : ∀ ds ∈ DATASETS, likeRzdPre ds.table_name = true := by
  decide

/-- The seeded-row counts of phases 3-5, run on any state `st0` already free of
rzd datasets, demo charts, and the rzd_analytics dashboard (as the cleanup pass
guarantees): one rzd_analytics dashboard, one tables row per demo dataset, six
demo charts. -/
theorem seed_counts_aux (pyInt pyFloat : String → Bool)
    (csvData : String → List String × List (List String)) (db_id : Nat) (st0 : MetaState)
    (hdash : st0.dashboards.filter (fun dsh => dsh.slug == "rzd_analytics") = [])
    (htab : ∀ t ∈ st0.tables, ¬ likeRzdPre t.table_name = true)
    (hsl : st0.slices.filter sliceNameMatches = []) :
    (((create_dashboard (create_charts (register_datasets pyInt pyFloat csvData db_id st0).2
          (register_datasets pyInt pyFloat csvData db_id st0).1).2
        (create_charts (register_datasets pyInt pyFloat csvData db_id st0).2
          (register_datasets pyInt pyFloat csvData db_id st0).1).1).1.dashboards.filter
        (fun dsh => dsh.slug == "rzd_analytics")).length = 1)
    ∧ (∀ ds ∈ DATASETS,
        ((create_dashboard (create_charts (register_datasets pyInt pyFloat csvData db_id st0).2
            (register_datasets pyInt pyFloat csvData db_id st0).1).2
          (create_charts (register_datasets pyInt pyFloat csvData db_id st0).2
            (register_datasets pyInt pyFloat csvData db_id st0).1).1).1.tables.filter
            (fun t => t.table_name == ds.table_name)).length = 1)
    ∧ (((create_dashboard (create_charts (register_datasets pyInt pyFloat csvData db_id st0).2
          (register_datasets pyInt pyFloat csvData db_id st0).1).2
        (create_charts (register_datasets pyInt pyFloat csvData db_id st0).2
          (register_datasets pyInt pyFloat csvData db_id st0).1).1).1.slices.filter
        sliceNameMatches).length = 6) := by
  set reg := register_datasets pyInt pyFloat csvData db_id st0 with hregdef
  set ch := create_charts reg.2 reg.1 with hchdef
  have hregdash : reg.1.dashboards = st0.dashboards :=
    (registerFold_spec pyInt pyFloat csvData db_id DATASETS (st0, [])).2.2.1
  have hregslices : reg.1.slices = st0.slices :=
    (registerFold_spec pyInt pyFloat csvData db_id DATASETS (st0, [])).2.1
  have hregnames : reg.1.tables.map (·.table_name)
      = st0.tables.map (·.table_name) ++ DATASETS.map (·.table_name) :=
    (registerFold_spec pyInt pyFloat csvData db_id DATASETS (st0, [])).2.2.2.2.1
  have hchdash : ch.1.dashboards = reg.1.dashboards :=
    (chartsFold_spec reg.2 CHARTS reg.1 []).2.2.2.1
  have hchtables : ch.1.tables = reg.1.tables :=
    (chartsFold_spec reg.2 CHARTS reg.1 []).2.1
  have hchpairs : ch.1.slices.map (fun s => (s.slice_name, s.datasource_name))
      = reg.1.slices.map (fun s => (s.slice_name, s.datasource_name))
        ++ CHARTS.map (fun c => (c.name, datasetTableName c.dataset_key)) :=
    (chartsFold_spec reg.2 CHARTS reg.1 []).2.2.2.2.2.1
  refine ⟨?_, ?_, ?_⟩
  · rw [create_dashboard_dash_count, hchdash, hregdash, hdash]
    rfl
  · intro ds hds
    have e0 : (create_dashboard ch.2 ch.1).1.tables = ch.1.tables := rfl
    rw [e0, hchtables, ← List.countP_eq_length_filter]
    have hmap : reg.1.tables.countP (fun t => t.table_name == ds.table_name)
        = (reg.1.tables.map (·.table_name)).countP (fun x => x == ds.table_name) := by
      rw [List.countP_map]
      rfl
    rw [hmap, hregnames, List.countP_append]
    have hz : (st0.tables.map (·.table_name)).countP (fun x => x == ds.table_name) = 0 := by
      rw [List.countP_eq_zero]
      intro a ha hcon
      obtain ⟨t, ht, rfl⟩ := List.mem_map.mp ha
      have heq : t.table_name = ds.table_name := by simpa using hcon
      exact htab t ht (heq ▸ datasets_names_like_rzd ds hds)
    have ho : (DATASETS.map (·.table_name)).countP (fun x => x == ds.table_name) = 1 := by
      fin_cases hds <;> decide
    rw [hz, ho]
  · have e0 : (create_dashboard ch.2 ch.1).1.slices = ch.1.slices := rfl
    rw [e0, ← List.countP_eq_length_filter]
    have hmap : ch.1.slices.countP sliceNameMatches
        = (ch.1.slices.map (fun s => (s.slice_name, s.datasource_name))).countP
            (fun pr => namePatternHit pr.1 pr.2) := by
      rw [List.countP_map]
      rfl
    rw [hmap, hchpairs, List.countP_append]
    have hz : (reg.1.slices.map (fun s => (s.slice_name, s.datasource_name))).countP
        (fun pr => namePatternHit pr.1 pr.2) = 0 := by
      have h1 : reg.1.slices.countP sliceNameMatches = 0 := by
        rw [hregslices, List.countP_eq_length_filter, hsl]
        rfl
      calc (reg.1.slices.map (fun s => (s.slice_name, s.datasource_name))).countP
            (fun pr => namePatternHit pr.1 pr.2)
          = reg.1.slices.countP
              ((fun pr : String × String => namePatternHit pr.1 pr.2)
                ∘ (fun s => (s.slice_name, s.datasource_name))) := List.countP_map _ _ _
        _ = reg.1.slices.countP sliceNameMatches := rfl
        _ = 0 := h1
    have hsix : (CHARTS.map (fun c => (c.name, datasetTableName c.dataset_key))).countP
        (fun pr => namePatternHit pr.1 pr.2) = 6 := by decide
    rw [hz, hsix]

/-- C1: re-running the full seeding pipeline is idempotent.  On every prior
metadata state, the cleanup pass deletes every previously-seeded demo row
(rzd datasets, demo charts by name pattern or by datasource, their
dashboard_slices links, their table_columns, the rzd_analytics dashboard),
and after the metadata phases re-seed — on any prior state, in particular the
state left by a previous run — the store holds exactly one dashboard with slug
`rzd_analytics`, exactly one tables row per rzd demo dataset, and exactly six
demo chart rows, with no duplicates accumulated. -/
theorem seed_pipeline_idempotent (pyInt pyFloat : String → Bool)
    (csvData : String → List String × List (List String))
    (path uuidHex now : String) (st : MetaState) :
    ((clean_old_rzd_data st).tables.filter (fun t => likeRzdPre t.table_name) = [])
    ∧ ((clean_old_rzd_data st).slices.filter sliceNameMatches = [])
    ∧ ((clean_old_rzd_data st).slices.filter
        (fun s => (rzdTableIdsOf st).contains s.datasource_id) = [])
    ∧ ((clean_old_rzd_data st).dashboards.filter
        (fun dsh => dsh.slug == "rzd_analytics") = [])
    ∧ ((clean_old_rzd_data st).table_columns.filter
        (fun c => (rzdTableIdsOf st).contains c.table_id) = [])
    ∧ ((clean_old_rzd_data st).dashboard_slices.filter
        (fun pr => (rzdDashIdsOf st).contains pr.1) = [])
    ∧ ((clean_old_rzd_data st).dashboard_slices.filter
        (fun pr => (rzdSliceIdsOf st).contains pr.2) = [])
    ∧ (((seedMetadata pyInt pyFloat csvData path uuidHex now st).dashboards.filter
          (fun dsh => dsh.slug == "rzd_analytics")).length = 1)
    ∧ (∀ ds ∈ DATASETS,
        ((seedMetadata pyInt pyFloat csvData path uuidHex now st).tables.filter
            (fun t => t.table_name == ds.table_name)).length = 1)
    ∧ (((seedMetadata pyInt pyFloat csvData path uuidHex now st).slices.filter
          sliceNameMatches).length = 6) := by
  obtain ⟨hc1, hc2, hc3, hc4, hc5, _, hc7, hc8⟩ := clean_old_rzd_data_clears st
  have htabmem : ∀ t ∈ (clean_old_rzd_data st).tables,
      ¬ likeRzdPre t.table_name = true := List.filter_eq_nil_iff.mp hc1
  have aux := seed_counts_aux pyInt pyFloat csvData
      (fix_examples_db_connection path uuidHex now (clean_old_rzd_data st).dbs).2
      { clean_old_rzd_data st with
          dbs := (fix_examples_db_connection path uuidHex now (clean_old_rzd_data st).dbs).1 }
      hc4 htabmem hc2
  exact ⟨hc1, hc2, hc3, hc4, hc5, hc7, hc8, aux.1, aux.2.1, aux.2.2⟩

/-- Closed witness: after seeding the empty metadata store (with trivial
parsers and empty CSVs), exactly one tables row is named `rzd_stations`. -/
theorem seed_pipeline_idempotent_witness :
    (((seedMetadata (fun _ => false) (fun _ => false) (fun _ => ([], [])) "p" "u" "t"
        (MetaState.mk [] [] [] [] [] [])).tables.filter
      (fun t => t.table_name == "rzd_stations")).length = 1) := by
  exact (seed_pipeline_idempotent (fun _ => false) (fun _ => false) (fun _ => ([], []))
      "p" "u" "t" (MetaState.mk [] [] [] [] [] [])).2.2.2.2.2.2.2.2.1
    ⟨"ds_stations", "rzd_stations", "Станции РЖД — 50 крупнейших станций России",
      "rzd_stations.csv", none⟩ (by decide)

/-- C2: atomicity of phases 2-5.  If an exception interrupts the metadata
phases — whatever partial writes the transaction buffer holds — the rollback
leaves superset.db exactly as it was and the process exits with status 1; the
commit happens only after all phases succeed, and then the stored state is
exactly the full pipeline result with exit status 0. -/
theorem main_meta_atomicity (pyInt pyFloat : String → Bool)
    (csvData : String → List String × List (List String))
    (path uuidHex now : String) (db partialBuf : MetaState) :
    (mainMetaTx pyInt pyFloat csvData path uuidHex now db (some partialBuf)
      = (db, 1))
    ∧ (mainMetaTx pyInt pyFloat csvData path uuidHex now db none
      = (seedMetadata pyInt pyFloat csvData path uuidHex now db, 0)) := by
  constructor
  · rfl
  · rfl

/-- C6 counterexample: the cleanup phase (index 2) is immediately followed by
the connection phase (index 3) — there is no index strictly between them, so
no commit separates these two phases, contradicting the claim that every phase
commits its writes before the next phase begins. -/
theorem phase_commit_discipline_cex :
    mainTrace[2]? = some (SeedEvent.phase "clean_old_rzd_data")
    ∧ mainTrace[3]? = some (SeedEvent.phase "fix_examples_db_connection")
    ∧ ∀ k, 2 < k → k < 3 → False := by
  refine ⟨rfl, rfl, ?_⟩
  intro k h1 h2
  omega

/-- C6 (amended): every phase runs exactly once per invocation of `main()`,
in source order; the examples-db phase commits its own connection before the
metadata phases begin, while the five metadata phases (indices 2-6, none of
which is a commit) share a single transaction whose only commit comes after
the last phase. -/
theorem phase_commit_discipline_spec :
    (∀ name ∈ ["create_examples_db", "clean_old_rzd_data", "fix_examples_db_connection",
        "register_datasets", "create_charts", "create_dashboard"],
      mainTrace.countP (fun e => e == SeedEvent.phase name) = 1)
    ∧ mainTrace.countP
        (fun e => match e with | SeedEvent.commitTo _ => true | _ => false) = 2
    ∧ mainTrace[1]? = some (SeedEvent.commitTo "examples.db")
    ∧ mainTrace[7]? = some (SeedEvent.commitTo "superset.db")
    ∧ (∀ k, 2 ≤ k → k ≤ 6 → ∃ name, mainTrace[k]? = some (SeedEvent.phase name)) := by
  refine ⟨by decide, by decide, rfl, rfl, ?_⟩
  intro k h1 h2
  interval_cases k
  · exact ⟨"clean_old_rzd_data", rfl⟩
  · exact ⟨"fix_examples_db_connection", rfl⟩
  · exact ⟨"register_datasets", rfl⟩
  · exact ⟨"create_charts", rfl⟩
  · exact ⟨"create_dashboard", rfl⟩

/-- Closed witness: the chart-creation phase appears exactly once in the trace. -/
theorem phase_commit_discipline_spec_witness :
    mainTrace.countP (fun e => e == SeedEvent.phase "create_charts") = 1 :=
  phase_commit_discipline_spec.1 "create_charts" (by decide)

